import Mathlib

/-!
Formal model of the Expense Tracker BFF API (bffapi): the error normalizer
(src/bffapi/src/utils/serviceClient.ts), the Joi-based request validation
(src/bffapi/src/middleware/validation.ts), the bill routes and the
bill-parser routes, and the top-level Express error middleware
(src/bffapi/src/index.ts).

JavaScript values that flow through the system are modelled by a small JSON
value type; JS numbers are modelled as exact rationals (IEEE-754 rounding is
not modelled).  The mutual shape of the inductive (instead of nested lists)
is only so that decidable equality can be derived.
-/

mutual

/-- A JSON (JavaScript) value, as held in request and response bodies. -/
inductive Json where
  | null : Json
  | bool (b : Bool) : Json
  | num (q : Rat) : Json
  | str (s : String) : Json
  | arr (elems : JsonList) : Json
  | obj (fields : JsonFields) : Json
deriving DecidableEq

/-- A list of JSON values (a JSON array's contents). -/
inductive JsonList where
  | nil : JsonList
  | cons (head : Json) (tail : JsonList) : JsonList
deriving DecidableEq

/-- The fields of a JSON object, in order. -/
inductive JsonFields where
  | nil : JsonFields
  | cons (key : String) (val : Json) (tail : JsonFields) : JsonFields
deriving DecidableEq

end

/-- Build a `JsonList` from a Lean list. -/
def JsonList.ofList : List Json → JsonList
  | [] => .nil
  | x :: xs => .cons x (JsonList.ofList xs)

/-- Build `JsonFields` from a Lean list of key-value pairs. -/
def JsonFields.ofList : List (String × Json) → JsonFields
  | [] => .nil
  | (k, v) :: xs => .cons k v (JsonFields.ofList xs)

/-- The keys of a JSON object, in order. -/
def JsonFields.keys : JsonFields → List String
  | .nil => []
  | .cons k _ t => k :: JsonFields.keys t

/-- First value bound to a key, if any. -/
def JsonFields.lookup : JsonFields → String → Option Json
  | .nil, _ => none
  | .cons k v t, key => if k = key then some v else JsonFields.lookup t key

/-- Object literal helper. -/
def Json.mkObj (l : List (String × Json)) : Json := .obj (JsonFields.ofList l)

/-- Array literal helper. -/
def Json.mkArr (l : List Json) : Json := .arr (JsonList.ofList l)

/-- JavaScript truthiness of a value (the empty string, 0, false, null are
falsy; arrays and objects are always truthy). -/
def truthy : Json → Bool
  | .null => false
  | .bool b => b
  | .num q => q != 0
  | .str s => s != ""
  | .arr _ => true
  | .obj _ => true

/-- JS member access `v.k`: the field of an object, undefined (`none`)
otherwise. -/
def getField : Json → String → Option Json
  | .obj fields, k => fields.lookup k
  | _, _ => none

/-- JS `a || b` on values (undefined is modelled by `Json.null` here only
where a defined value is always produced). -/
def jsOrJson (a b : Json) : Json := if truthy a then a else b

/-- JS `a || b` where `a` is a possibly-undefined string (undefined and the
empty string are both falsy). -/
def jsOrStr (a : Option String) (b : String) : String :=
  match a with
  | some s => if s = "" then b else s
  | none => b

theorem jsOrStr_some_ne (s b : String) (h : s ≠ "") : jsOrStr (some s) b = s := by
  simp [jsOrStr, h]

/-! ## The error normalizer (handleServiceError, serviceClient.ts lines 38 to 67) -/

/-- The normalized error record every upstream failure is converted to
(src/bffapi/src/types/index.ts).  The `message` is whatever JS value
`response.data.error` held, hence `Json` and not `String`. -/
structure ServiceError where
  statusCode : Nat
  message : Json
  details : Json
deriving DecidableEq

/-- The three ways an upstream axios call can fail, as distinguished by
`handleServiceError`: the upstream answered with an error status and a
response body; the request went out but no response arrived
(`error.request` set, `error.response` not); or the request could not even
be constructed or sent (a local error, carrying a description). -/
inductive UpstreamFailure where
  | httpResponse (status : Nat) (data : Json) : UpstreamFailure
  | noResponse : UpstreamFailure
  | setupError (description : String) : UpstreamFailure
deriving DecidableEq

/-- serviceClient.ts lines 38 to 67.  In the response case the code computes
`message: data && data.error ? data.error : 'Service error'` — a JS
conditional on truthiness, so a present-but-falsy `error` field (for example
the empty string) still yields the fixed text. -/
def handleServiceError : UpstreamFailure → ServiceError
  | .httpResponse status data =>
    { statusCode := status
    , message :=
        if truthy data && truthy ((getField data ("error")).getD .null)
        then (getField data ("error")).getD .null
        else .str "Service error"
    , details := data }
  | .noResponse =>
    { statusCode := 503
    , message := .str "Service unavailable"
    , details := .str "No response received from service" }
  | .setupError description =>
    { statusCode := 500
    , message := .str "Error connecting to service"
    , details := .str description }

/-- The status produced by a real HTTP response line is at least 100. -/
def validStatus : UpstreamFailure → Prop
  | .httpResponse s _ => 100 ≤ s
  | .noResponse => True
  | .setupError _ => True

instance : DecidablePred validStatus := by
  intro u; unfold validStatus; cases u <;> infer_instance

/-! ## The Express error middleware (index.ts lines 76 to 81) -/

/-- What the top-level error middleware sees of a thrown JS error value: its
(possibly undefined) `statusCode` property and its `message` property. -/
structure JsError where
  statusCode : Option Nat
  message : Json
deriving DecidableEq

/-- A thrown normalized `ServiceError`, as the error middleware sees it. -/
def ServiceError.toJsError (e : ServiceError) : JsError :=
  { statusCode := some e.statusCode, message := e.message }

/-- An HTTP response: status code and JSON body. -/
abbrev HttpResponse := Nat × Json

/-- index.ts lines 76 to 81: `res.status(err.statusCode || 500).json({error:
err.message || 'Internal Server Error'})`. -/
def errorMiddleware (err : JsError) : HttpResponse :=
  ( match err.statusCode with
    | some n => if n = 0 then 500 else n
    | none => 500
  , Json.mkObj [("error", jsOrJson err.message (.str "Internal Server Error"))] )

/-- The shared catch block of the GET, PUT and DELETE `/bills/:id` handlers
(part_003 lines 118 to 128, 232 to 246, 269 to 279): a normalized error with
`statusCode === 404` is remapped to a fixed body, anything else is passed to
`next(error)` and hence to the error middleware. -/
def billIdErrorResponse (e : ServiceError) : HttpResponse :=
  if e.statusCode = 404 then (404, Json.mkObj [("error", .str "Bill not found")])
  else errorMiddleware e.toJsError

theorem handleServiceError_message_truthy (u : UpstreamFailure) :
    truthy (handleServiceError u).message = true := by
  cases u with
  | httpResponse s d =>
    show truthy (if truthy d && truthy ((getField d ("error")).getD .null)
        then (getField d ("error")).getD .null else .str "Service error") = true
    by_cases h : (truthy d && truthy ((getField d ("error")).getD .null)) = true
    · rw [if_pos h]
      exact ((Bool.and_eq_true _ _).mp h).2
    · rw [if_neg h]
      decide
  | noResponse => decide
  | setupError d =>
    show truthy (.str "Error connecting to service") = true
    decide

theorem handleServiceError_statusCode_ne_zero (u : UpstreamFailure)
    (h : validStatus u) : (handleServiceError u).statusCode ≠ 0 := by
  cases u with
  | httpResponse s d =>
    simp only [validStatus] at h
    show s ≠ 0
    omega
  | noResponse => decide
  | setupError d =>
    show (500 : Nat) ≠ 0
    decide

/-! ## Dates: the part of JS `new Date().toISOString().split('T')[0]` the
create-from-image handler uses (part_002 line 145).  Time is modelled as
whole days since 1970-01-01 UTC; the civil-date computation is the standard
era-based algorithm, which agrees with the ECMAScript date algorithm for
days at or after the epoch. -/

/-- Gregorian `(year, month, day)` of a day count since 1970-01-01. -/
def civilFromDays (z : Nat) : Nat × Nat × Nat :=
  let z' := z + 719468
  let era := z' / 146097
  let doe := z' % 146097
  let yoe := (doe - doe / 1460 + doe / 36524 - doe / 146096) / 365
  let y := yoe + era * 400
  let doy := doe - (365 * yoe + yoe / 4 - yoe / 100)
  let mp := (5 * doy + 2) / 153
  let d := doy - (153 * mp + 2) / 5 + 1
  let m := if mp < 10 then mp + 3 else mp - 9
  (if m ≤ 2 then y + 1 else y, m, d)

/-- The year component of a day count. -/
def yearOfDay (z : Nat) : Nat := (civilFromDays z).1

/-- The decimal digit character for `n % 10`. -/
def digitChar (n : Nat) : Char :=
  match n % 10 with
  | 0 => '0' | 1 => '1' | 2 => '2' | 3 => '3' | 4 => '4'
  | 5 => '5' | 6 => '6' | 7 => '7' | 8 => '8' | _ => '9'

/-- `YYYY-MM-DD` rendering of a day count: the date part of
`toISOString()` (fixed four-digit year, so faithful to JS only for years up
to 9999; `toISOString` switches to an expanded year format above that). -/
def isoDateOfDay (z : Nat) : String :=
  match civilFromDays z with
  | (y, m, d) =>
    String.mk [digitChar (y / 1000), digitChar (y / 100), digitChar (y / 10), digitChar y,
               '-', digitChar (m / 10), digitChar m,
               '-', digitChar (d / 10), digitChar d]

/-- Whether a character is a decimal digit (regex `\d`, i.e. `[0-9]`). -/
def isDigitCh (c : Char) : Bool :=
  c = '0' ∨ c = '1' ∨ c = '2' ∨ c = '3' ∨ c = '4' ∨
  c = '5' ∨ c = '6' ∨ c = '7' ∨ c = '8' ∨ c = '9'

/-- The Joi `due_date` regex `^\d{4}-\d{2}-\d{2}$`
(validation.ts line 37) as an executable predicate. -/
def matchesDatePattern (s : String) : Bool :=
  match s.data with
  | [a, b, c, d, h1, e, f, h2, g, k] =>
    isDigitCh a && isDigitCh b && isDigitCh c && isDigitCh d &&
    h1 = '-' && isDigitCh e && isDigitCh f &&
    h2 = '-' && isDigitCh g && isDigitCh k
  | _ => false

theorem isDigitCh_digitChar (n : Nat) : isDigitCh (digitChar n) = true := by
  unfold digitChar
  split <;> decide

theorem matchesDatePattern_isoDateOfDay (z : Nat) :
    matchesDatePattern (isoDateOfDay z) = true := by
  unfold isoDateOfDay
  split
  next y m d heq =>
    simp [matchesDatePattern, isDigitCh_digitChar]

/-- Sanity: the epoch renders as expected. -/
theorem isoDateOfDay_epoch : isoDateOfDay 0 = "1970-01-01" := by decide

/-- Sanity: day 20162 is 2025-03-15 (the date used in the repository's
tests). -/
theorem isoDateOfDay_example : isoDateOfDay 20162 = "2025-03-15" := by decide

/-! ## Data shapes (src/bffapi/src/types/index.ts) -/

/-- `ParsedReceiptItem`: `{name, quantity, price}`. -/
structure ParsedReceiptItem where
  name : String
  quantity : Rat
  price : Rat
deriving DecidableEq

/-- `ParsedReceipt`: `{items, total, currency?, date?, merchant?}`. -/
structure ParsedReceipt where
  items : List ParsedReceiptItem
  total : Rat
  currency : Option String
  date : Option String
  merchant : Option String
deriving DecidableEq

/-- An item of the bill-creation payload the create-from-image handler
builds (part_002 lines 147 to 152). -/
structure BillInputItem where
  name : String
  description : String
  amount : Rat
  quantity : Rat
deriving DecidableEq

/-- The bill-creation payload the create-from-image handler builds
(part_002 lines 142 to 153): all five fields are always set. -/
structure BillInput where
  title : String
  description : String
  due_date : String
  paid : Bool
  items : List BillInputItem
deriving DecidableEq

/-- What `createBill` resolves to: `{id}` (serviceClient.ts `CreatedBill`). -/
structure CreatedBill where
  id : Rat
deriving DecidableEq

/-- An uploaded file as multer presents it: `req.file`. -/
structure ImageFile where
  buffer : String
  originalname : String
  mimetype : String
  size : Nat
deriving DecidableEq

/-- JSON serialization of a `ParsedReceipt` (undefined optional fields are
dropped, as `res.json` drops them). -/
def parsedReceiptToJson (p : ParsedReceipt) : Json :=
  Json.mkObj
    ([("items", Json.mkArr (p.items.map (fun it =>
        Json.mkObj [("name", .str it.name), ("quantity", .num it.quantity),
                    ("price", .num it.price)]))),
      ("total", .num p.total)]
     ++ (match p.currency with | some c => [(("currency" : String), Json.str c)] | none => [])
     ++ (match p.date with | some d => [(("date" : String), Json.str d)] | none => [])
     ++ (match p.merchant with | some m => [(("merchant" : String), Json.str m)] | none => []))

/-- JSON serialization of the constructed bill payload, as axios sends it. -/
def billInputToJson (b : BillInput) : Json :=
  Json.mkObj
    [("title", .str b.title),
     ("description", .str b.description),
     ("due_date", .str b.due_date),
     ("paid", .bool b.paid),
     ("items", Json.mkArr (b.items.map (fun it =>
        Json.mkObj [("name", .str it.name), ("description", .str it.description),
                    ("amount", .num it.amount), ("quantity", .num it.quantity)])))]

/-! ## The bill transformation (part_002 lines 132 to 153) -/

/-- The transformation of a parsed receipt into a bill-creation payload, as
inlined in the create-from-image handler.  `titleField` is the optional
`title` form field; `now` is the current time in days since the epoch (read
only when `parsedData.date` is falsy).  All three defaults use the JS `||`
operator, so an empty string triggers the default exactly like an absent
field. -/
def toBillInput (parsed : ParsedReceipt) (titleField : Option String) (now : Nat) :
    BillInput :=
  { title := jsOrStr titleField ("Bill from receipt image")
  , description := "Created from receipt: " ++ jsOrStr parsed.merchant ("Unknown merchant")
  , due_date := jsOrStr parsed.date (isoDateOfDay now)
  , paid := false
  , items := parsed.items.map (fun item =>
      { name := item.name, description := "", amount := item.price,
        quantity := item.quantity }) }

/-! ## Joi number coercion (validation.ts; Joi converts by default).
The accepted grammar is Joi's number regex: optional surrounding space,
optional sign, digits with an optional fraction (or a bare fraction), and an
optional decimal exponent.  Values are exact rationals; IEEE-754 rounding
and the JS safe-integer bound are not modelled. -/

/-- Decimal digits to a natural number. -/
def digitsToNat (ds : List Char) : Nat :=
  ds.foldl (fun a c => a * 10 + (c.toNat - 48)) 0

/-- Drop surrounding whitespace. -/
def stripSpace (cs : List Char) : List Char :=
  ((cs.dropWhile Char.isWhitespace).reverse.dropWhile Char.isWhitespace).reverse

/-- Parse what follows the `e`/`E` of an exponent: optional sign then at
least one digit, ending the input. -/
def parseExpPart (cs : List Char) : Option Int :=
  let signSplit : Bool × List Char :=
    match cs with
    | '-' :: r => (true, r)
    | '+' :: r => (false, r)
    | _ => (false, cs)
  let ds := signSplit.2.takeWhile isDigitCh
  let rest := signSplit.2.dropWhile isDigitCh
  if ds ≠ [] ∧ rest = [] then
    some (if signSplit.1 then -(digitsToNat ds : Int) else (digitsToNat ds : Int))
  else none

/-- Joi number coercion of a string.  The value is assembled with `mkRat`
over integer arithmetic: the digits before and after the point form the
mantissa over `10 ^ fracDigits`, and a decimal exponent scales the
numerator or the denominator. -/
def parseJoiNumber (s : String) : Option Rat :=
  let cs := stripSpace s.data
  let signSplit : Bool × List Char :=
    match cs with
    | '-' :: r => (true, r)
    | '+' :: r => (false, r)
    | _ => (false, cs)
  let intDs := signSplit.2.takeWhile isDigitCh
  let cs2 := signSplit.2.dropWhile isDigitCh
  let fracSplit : List Char × List Char :=
    match cs2 with
    | '.' :: r => (r.takeWhile isDigitCh, r.dropWhile isDigitCh)
    | _ => ([], cs2)
  let fracDs := fracSplit.1
  let cs3 := fracSplit.2
  let mant : Nat := digitsToNat intDs * 10 ^ fracDs.length + digitsToNat fracDs
  let signedMant : Int := if signSplit.1 then -(mant : Int) else (mant : Int)
  let valueAt : Int → Rat := fun e =>
    match e with
    | .ofNat k => mkRat (signedMant * ((10 ^ k : Nat) : Int)) (10 ^ fracDs.length)
    | .negSucc k => mkRat signedMant (10 ^ fracDs.length * 10 ^ (k + 1))
  if intDs = [] ∧ fracDs = [] then none
  else
    match cs3 with
    | [] => some (valueAt 0)
    | 'e' :: r => (parseExpPart r).map valueAt
    | 'E' :: r => (parseExpPart r).map valueAt
    | _ => none

/-! ## The bill and id schemas (validation.ts lines 34 to 52), as violation
lists.  Message texts are representative of Joi messages; which fields
violate, and in what order the schema checks them, is the modelled content.
Joi by default rejects unknown object keys, converts numeric strings and
boolean strings (case-insensitively), and rejects empty strings for
`string()` fields without `allow` for them. -/

/-- `title: Joi.string().required()`. -/
def titleViolations (j : Json) : List String :=
  match getField j ("title") with
  | none => ["\"title\" is required"]
  | some (.str s) => if s = "" then ["\"title\" is not allowed to be empty"] else []
  | some _ => ["\"title\" must be a string"]

/-- `description: Joi.string().allow('', null)`. -/
def descriptionViolations (j : Json) : List String :=
  match getField j ("description") with
  | none => []
  | some .null => []
  | some (.str _) => []
  | some _ => ["\"description\" must be a string"]

/-- `due_date: Joi.string().pattern(/^\d{4}-\d{2}-\d{2}$/)`. -/
def dueDateViolations (j : Json) : List String :=
  match getField j ("due_date") with
  | none => []
  | some (.str s) =>
    if s = "" then ["\"due_date\" is not allowed to be empty"]
    else if matchesDatePattern s then []
    else ["\"due_date\" fails to match the required pattern"]
  | some _ => ["\"due_date\" must be a string"]

/-- `paid: Joi.boolean().default(false)` (the default itself is applied only
to the converted copy, which the middleware discards). -/
def paidViolations (j : Json) : List String :=
  match getField j ("paid") with
  | none => []
  | some (.bool _) => []
  | some (.str s) =>
    if s.toLower = "true" ∨ s.toLower = "false" then []
    else ["\"paid\" must be a boolean"]
  | some _ => ["\"paid\" must be a boolean"]

/-- Joi number coercion of a field value. -/
def joiNumberValue : Json → Option Rat
  | .num q => some q
  | .str s => parseJoiNumber s
  | _ => none

/-- Item `name: Joi.string().required()`. -/
def itemNameViolations (item : Json) : List String :=
  match getField item ("name") with
  | none => ["\"name\" is required"]
  | some (.str s) => if s = "" then ["\"name\" is not allowed to be empty"] else []
  | some _ => ["\"name\" must be a string"]

/-- Item `description: Joi.string().allow('', null)`. -/
def itemDescriptionViolations (item : Json) : List String :=
  match getField item ("description") with
  | none => []
  | some .null => []
  | some (.str _) => []
  | some _ => ["\"description\" must be a string"]

/-- Item `amount: Joi.number().required().min(0)`. -/
def amountViolations (item : Json) : List String :=
  match getField item ("amount") with
  | none => ["\"amount\" is required"]
  | some v =>
    match joiNumberValue v with
    | none => ["\"amount\" must be a number"]
    | some q => if q < 0 then ["\"amount\" must be greater than or equal to 0"] else []

/-- Item `quantity: Joi.number().integer().min(1).default(1)`. -/
def quantityViolations (item : Json) : List String :=
  match getField item ("quantity") with
  | none => []
  | some v =>
    match joiNumberValue v with
    | none => ["\"quantity\" must be a number"]
    | some q =>
      if q.den ≠ 1 then ["\"quantity\" must be an integer"]
      else if q < 1 then ["\"quantity\" must be greater than or equal to 1"] else []

/-- Joi object schemas reject keys outside the schema. -/
def unknownKeyViolations (allowed : List String) : JsonFields → List String
  | .nil => []
  | .cons k _ t =>
    (if k ∈ allowed then [] else ["\"" ++ k ++ "\" is not allowed"]) ++
    unknownKeyViolations allowed t

/-- Violations of one entry of `items`. -/
def itemViolations (item : Json) : List String :=
  match item with
  | .obj fields =>
    itemNameViolations item ++ itemDescriptionViolations item ++
    amountViolations item ++ quantityViolations item ++
    unknownKeyViolations [("name"), ("description"), ("amount"), ("quantity")] fields
  | _ => ["\"items\" entries must be of type object"]

/-- Violations of all entries of `items`, in order. -/
def itemsListViolations : JsonList → List String
  | .nil => []
  | .cons x t => itemViolations x ++ itemsListViolations t

/-- `items: Joi.array().items(...)`. -/
def itemsViolations (j : Json) : List String :=
  match getField j ("items") with
  | none => []
  | some (.arr xs) => itemsListViolations xs
  | some _ => ["\"items\" must be an array"]

/-- All violations of the bill schema against a JS body, in schema order,
unknown-key checks last.  Validation succeeds exactly when this is empty. -/
def billViolations (j : Json) : List String :=
  match j with
  | .obj fields =>
    titleViolations j ++ descriptionViolations j ++ dueDateViolations j ++
    paidViolations j ++ itemsViolations j ++
    unknownKeyViolations [("title"), ("description"), ("due_date"), ("paid"), ("items")] fields
  | _ => ["\"value\" must be of type object"]

/-- Violations of the id parameter schema against the `req.params.id`
string: Joi number conversion, then the integer rule. -/
def idParamViolations (s : String) : List String :=
  match parseJoiNumber s with
  | none => ["\"id\" must be a number"]
  | some q => if q.den ≠ 1 then ["\"id\" must be an integer"] else []

/-- Joi `validate` is called with default options, and `abortEarly`
defaults to true: `error.details` holds only the first violation. -/
def joiReported (violations : List String) : List String := violations.take 1

/-- The 400 body built by the validation middleware (validation.ts lines 22
to 28): the details messages comma-joined. -/
def validationFailureBody (violations : List String) : Json :=
  Json.mkObj [("error", .str (String.intercalate (", ") (joiReported violations)))]

/-! ## Route handlers, instrumented with the list of upstream calls made. -/

/-- A call made to an upstream client during one request. -/
inductive UpCall where
  | callGetById (id : String) : UpCall
  | callCreate (payload : Json) : UpCall
  | callUpdate (id : String) (payload : Json) : UpCall
  | callDelete (id : String) : UpCall
  | callParse (buffer : String) (originalname : String) : UpCall
deriving DecidableEq

/-- GET /bills/:id (part_003 lines 118 to 128), validation middleware
included.  `getBill` stands for the accounts client operation; the second
component is the trace of upstream calls. -/
def getBillByIdRoute (getBill : String → Except ServiceError Json) (idStr : String) :
    HttpResponse × List UpCall :=
  if idParamViolations idStr = [] then
    match getBill idStr with
    | .ok bill => ((200, bill), [.callGetById idStr])
    | .error e => (billIdErrorResponse e, [.callGetById idStr])
  else ((400, validationFailureBody (idParamViolations idStr)), [])

/-- POST /bills (part_003 lines 178 to 185): validate body, then
`createBill(req.body)` — the body is forwarded unchanged (the converted
value Joi produced is discarded by the middleware). -/
def createBillRoute (create : Json → Except ServiceError Json) (body : Json) :
    HttpResponse × List UpCall :=
  if billViolations body = [] then
    match create body with
    | .ok result => ((201, result), [.callCreate body])
    | .error e => (errorMiddleware e.toJsError, [.callCreate body])
  else ((400, validationFailureBody (billViolations body)), [])

/-- PUT /bills/:id (part_003 lines 232 to 246). -/
def updateBillRoute (update : String → Json → Except ServiceError Json)
    (idStr : String) (body : Json) : HttpResponse × List UpCall :=
  if idParamViolations idStr = [] then
    if billViolations body = [] then
      match update idStr body with
      | .ok result => ((200, result), [.callUpdate idStr body])
      | .error e => (billIdErrorResponse e, [.callUpdate idStr body])
    else ((400, validationFailureBody (billViolations body)), [])
  else ((400, validationFailureBody (idParamViolations idStr)), [])

/-- DELETE /bills/:id (part_003 lines 269 to 279). -/
def deleteBillRoute (deleteBill : String → Except ServiceError Json) (idStr : String) :
    HttpResponse × List UpCall :=
  if idParamViolations idStr = [] then
    match deleteBill idStr with
    | .ok result => ((200, result), [.callDelete idStr])
    | .error e => (billIdErrorResponse e, [.callDelete idStr])
  else ((400, validationFailureBody (idParamViolations idStr)), [])

/-- POST /parser/parse-bill handler (part_002 lines 83 to 98), after
multer. -/
def parseBillHandler (parse : String → String → Except ServiceError ParsedReceipt)
    (file : Option ImageFile) : HttpResponse × List UpCall :=
  match file with
  | none => ((400, Json.mkObj [("error", .str "No image file provided")]), [])
  | some f =>
    match parse f.buffer f.originalname with
    | .ok parsed =>
      ((200, parsedReceiptToJson parsed), [.callParse f.buffer f.originalname])
    | .error e => (errorMiddleware e.toJsError, [.callParse f.buffer f.originalname])

/-- POST /parser/create-bill-from-image handler (part_002 lines 126 to
167), after multer: check the file, parse, transform, create, respond. -/
def createBillFromImageHandler
    (parse : String → String → Except ServiceError ParsedReceipt)
    (create : Json → Except ServiceError CreatedBill)
    (file : Option ImageFile) (titleField : Option String) (now : Nat) :
    HttpResponse × List UpCall :=
  match file with
  | none => ((400, Json.mkObj [("error", .str "No image file provided")]), [])
  | some f =>
    match parse f.buffer f.originalname with
    | .error e => (errorMiddleware e.toJsError, [.callParse f.buffer f.originalname])
    | .ok parsed =>
      let billData := toBillInput parsed titleField now
      match create (billInputToJson billData) with
      | .error e =>
        (errorMiddleware e.toJsError,
         [.callParse f.buffer f.originalname, .callCreate (billInputToJson billData)])
      | .ok created =>
        ((201, Json.mkObj
            [("message", .str "Bill created successfully from parsed image"),
             ("billId", .num created.id),
             ("parsedData", parsedReceiptToJson parsed)]),
         [.callParse f.buffer f.originalname, .callCreate (billInputToJson billData)])

/-- JS `String.prototype.startsWith`, on the character lists. -/
def strStartsWith (s pre : String) : Bool := pre.data.isPrefixOf s.data

/-- The multer stage of the parser routes (part_002 lines 13 to 26): image
files only (`file.mimetype.startsWith('image/')`) and a 5 MiB file-size
limit; a rejected upload becomes a plain Error (message only, no
`statusCode` property). -/
def multerSingleImage (upload : Option ImageFile) : Except String (Option ImageFile) :=
  match upload with
  | none => .ok none
  | some f =>
    if strStartsWith f.mimetype ("image/") = false then .error "Only image files are allowed"
    else if 5 * 1024 * 1024 < f.size then .error "File too large"
    else .ok (some f)

/-- Full POST /parser/parse-bill pipeline: multer, then the handler; a
multer error goes straight to the error middleware. -/
def parseBillEndpoint (parse : String → String → Except ServiceError ParsedReceipt)
    (upload : Option ImageFile) : HttpResponse × List UpCall :=
  match multerSingleImage upload with
  | .error msg => (errorMiddleware { statusCode := none, message := .str msg }, [])
  | .ok file => parseBillHandler parse file

/-- Full POST /parser/create-bill-from-image pipeline: multer, then the
handler. -/
def createBillFromImageEndpoint
    (parse : String → String → Except ServiceError ParsedReceipt)
    (create : Json → Except ServiceError CreatedBill)
    (upload : Option ImageFile) (titleField : Option String) (now : Nat) :
    HttpResponse × List UpCall :=
  match multerSingleImage upload with
  | .error msg => (errorMiddleware { statusCode := none, message := .str msg }, [])
  | .ok file => createBillFromImageHandler parse create file titleField now

/-! ## Helper lemmas -/

theorem truthy_of_getField_some (d : Json) (k : String) (e : Json)
    (h : getField d k = some e) : truthy d = true := by
  cases d <;> simp [getField, truthy] at h ⊢

theorem intercalate_singleton (sep m : String) :
    String.intercalate sep [m] = m := rfl

theorem billIdErrorResponse_404 (e : ServiceError) (h : e.statusCode = 404) :
    billIdErrorResponse e = (404, Json.mkObj [("error", .str "Bill not found")]) := by
  simp [billIdErrorResponse, h]

theorem billIdErrorResponse_ne_404 (e : ServiceError) (h404 : e.statusCode ≠ 404)
    (h0 : e.statusCode ≠ 0) (hm : truthy e.message = true) :
    billIdErrorResponse e = (e.statusCode, Json.mkObj [("error", e.message)]) := by
  simp [billIdErrorResponse, h404, errorMiddleware, ServiceError.toJsError, h0, jsOrJson, hm]

/-! ## Claim C2 -/

/-- C2 as stated is false: when the upstream responds with a body whose
`error` field is present but the empty string, the claim says the message is
that field (the empty string), but `data && data.error` is falsy in JS, so
the code produces the fixed text instead. -/
theorem C2_counterexample :
    getField (Json.mkObj [("error", .str "")]) ("error") = some (.str "") ∧
    (handleServiceError (.httpResponse 502 (Json.mkObj [("error", .str "")]))).message
      ≠ .str "" ∧
    (handleServiceError (.httpResponse 502 (Json.mkObj [("error", .str "")]))).message
      = .str "Service error" := by
  decide

/-- C2 (amended): a non-2xx upstream response yields that status, the
response body as details, and the body's `error` field as message when the
field is present and truthy (else the fixed text); no response yields the
fixed 503 record; a send failure yields the fixed 500 record with the
underlying description. -/
theorem C2_ok (s : Nat) (d e : Json) (h1 : getField d ("error") = some e)
    (h2 : truthy e = true) :
    handleServiceError (.httpResponse s d)
      = { statusCode := s, message := e, details := d } ∧
    (∀ d2, (∀ e2, getField d2 ("error") = some e2 → truthy e2 = false) →
        handleServiceError (.httpResponse s d2)
          = { statusCode := s, message := .str "Service error", details := d2 }) ∧
    handleServiceError .noResponse
      = { statusCode := 503, message := .str "Service unavailable",
          details := .str "No response received from service" } ∧
    (∀ desc, handleServiceError (.setupError desc)
      = { statusCode := 500, message := .str "Error connecting to service",
          details := .str desc }) := by
  refine ⟨?_, ?_, rfl, fun desc => rfl⟩
  · have hd : truthy d = true := truthy_of_getField_some d ("error") e h1
    simp [handleServiceError, h1, hd, h2]
  · intro d2 h
    cases he : getField d2 ("error") with
    | none => simp [handleServiceError, he, truthy]
    | some e2 =>
      have := h e2 he
      simp [handleServiceError, he, this]

/-- Witness for C2 at a concrete upstream response. -/
theorem C2_witness :
    handleServiceError (.httpResponse 502 (Json.mkObj [("error", .str "boom")]))
      = { statusCode := 502, message := .str "boom",
          details := Json.mkObj [("error", .str "boom")] } :=
  (C2_ok 502 (Json.mkObj [("error", .str "boom")]) (.str "boom")
    (by decide) (by decide)).1

/-! ## Claim C3 -/

/-- C3: on the GET, PUT and DELETE /bills/:id routes (with a valid id and,
for PUT, a valid body), an upstream failure normalized to statusCode 404
produces HTTP 404 with body exactly error: Bill not found, whatever the
normalized message was; any other normalized failure is passed on with its
own statusCode and an error: message body. -/
theorem C3_ok (u : UpstreamFailure) (hs : validStatus u) (e : ServiceError)
    (he : e = handleServiceError u) (idStr : String)
    (hid : idParamViolations idStr = []) (body : Json)
    (hbody : billViolations body = []) :
    (e.statusCode = 404 →
      getBillByIdRoute (fun _ => .error e) idStr
        = ((404, Json.mkObj [("error", .str "Bill not found")]), [.callGetById idStr]) ∧
      updateBillRoute (fun _ _ => .error e) idStr body
        = ((404, Json.mkObj [("error", .str "Bill not found")]), [.callUpdate idStr body]) ∧
      deleteBillRoute (fun _ => .error e) idStr
        = ((404, Json.mkObj [("error", .str "Bill not found")]), [.callDelete idStr])) ∧
    (e.statusCode ≠ 404 →
      getBillByIdRoute (fun _ => .error e) idStr
        = ((e.statusCode, Json.mkObj [("error", e.message)]), [.callGetById idStr]) ∧
      updateBillRoute (fun _ _ => .error e) idStr body
        = ((e.statusCode, Json.mkObj [("error", e.message)]), [.callUpdate idStr body]) ∧
      deleteBillRoute (fun _ => .error e) idStr
        = ((e.statusCode, Json.mkObj [("error", e.message)]), [.callDelete idStr])) := by
  constructor
  · intro h404
    have hb := billIdErrorResponse_404 e h404
    refine ⟨?_, ?_, ?_⟩ <;>
      simp [getBillByIdRoute, updateBillRoute, deleteBillRoute, hid, hbody, hb]
  · intro h404
    have h0 : e.statusCode ≠ 0 := by
      rw [he]; exact handleServiceError_statusCode_ne_zero u hs
    have hm : truthy e.message = true := by
      rw [he]; exact handleServiceError_message_truthy u
    have hb := billIdErrorResponse_ne_404 e h404 h0 hm
    refine ⟨?_, ?_, ?_⟩ <;>
      simp [getBillByIdRoute, updateBillRoute, deleteBillRoute, hid, hbody, hb]

/-- Witness for C3: a concrete upstream 404 on GET and a concrete upstream
502 on DELETE. -/
theorem C3_witness :
    getBillByIdRoute
        (fun _ => .error (handleServiceError
          (.httpResponse 404 (Json.mkObj [("error", .str "no such bill")])))) ("7")
      = ((404, Json.mkObj [("error", .str "Bill not found")]), [.callGetById ("7")]) ∧
    deleteBillRoute
        (fun _ => .error (handleServiceError
          (.httpResponse 502 (Json.mkObj [("error", .str "bad gateway")])))) ("7")
      = ((502, Json.mkObj [("error", .str "bad gateway")]), [.callDelete ("7")]) := by
  constructor
  · exact ((C3_ok (.httpResponse 404 (Json.mkObj [("error", .str "no such bill")]))
      (by decide) _ rfl ("7") (by decide) (Json.mkObj [("title", .str "t")])
      (by decide)).1 (by decide)).1
  · exact ((C3_ok (.httpResponse 502 (Json.mkObj [("error", .str "bad gateway")]))
      (by decide) _ rfl ("7") (by decide) (Json.mkObj [("title", .str "t")])
      (by decide)).2 (by decide)).2.2

/-! ## Claim C1 -/

/-- C1 as stated is false: with a supplied (but empty) title and a
ParsedReceipt whose merchant and date are present but empty strings, the
claim predicts title `""`, description `"Created from receipt: "` and
due_date `""`, but the handler builds all three with JS `||`, which treats
the empty string like an absent value, so the defaults are produced. -/
theorem C1_counterexample :
    (toBillInput { items := [], total := 0, currency := none,
                   date := some "", merchant := some "" } (some "") 0).title ≠ "" ∧
    (toBillInput { items := [], total := 0, currency := none,
                   date := some "", merchant := some "" } (some "") 0).description
      ≠ "Created from receipt: " ∧
    (toBillInput { items := [], total := 0, currency := none,
                   date := some "", merchant := some "" } (some "") 0).due_date ≠ "" := by
  decide

/-- C1 (amended): the transformation yields the supplied title when it is a
nonempty string and the default title when the field is absent or empty;
the description uses the merchant when present and nonempty, else the
Unknown-merchant fallback; due_date is parsed.date when present and
nonempty; paid is false; each receipt item maps to a bill item with empty
description, amount = price and the same name and quantity; and on the
claim's concrete grocery example (no supplied title) the output is exactly
the claimed record. -/
theorem C1_ok (parsed : ParsedReceipt) (titleField : Option String) (now : Nat) :
    (∀ t, titleField = some t → t ≠ "" →
        (toBillInput parsed titleField now).title = t) ∧
    (titleField = none ∨ titleField = some "" →
        (toBillInput parsed titleField now).title = "Bill from receipt image") ∧
    (∀ m, parsed.merchant = some m → m ≠ "" →
        (toBillInput parsed titleField now).description = "Created from receipt: " ++ m) ∧
    (parsed.merchant = none ∨ parsed.merchant = some "" →
        (toBillInput parsed titleField now).description
          = "Created from receipt: Unknown merchant") ∧
    (∀ d, parsed.date = some d → d ≠ "" →
        (toBillInput parsed titleField now).due_date = d) ∧
    (toBillInput parsed titleField now).paid = false ∧
    (toBillInput parsed titleField now).items = parsed.items.map
      (fun item => { name := item.name, description := "", amount := item.price,
                     quantity := item.quantity }) ∧
    toBillInput { items := [{ name := "Milk", quantity := 1, price := mkRat 399 100 }],
                  total := mkRat 399 100, currency := none, date := some "2025-03-15",
                  merchant := some "Grocery Store" } none now
      = { title := "Bill from receipt image",
          description := "Created from receipt: Grocery Store",
          due_date := "2025-03-15", paid := false,
          items := [{ name := "Milk", description := "", amount := mkRat 399 100,
                      quantity := 1 }] } := by
  refine ⟨?_, ?_, ?_, ?_, ?_, rfl, rfl, ?_⟩
  · intro t ht hne
    simp [toBillInput, jsOrStr, ht, hne]
  · rintro (ht | ht) <;> simp [toBillInput, jsOrStr, ht]
  · intro m hm hne
    simp [toBillInput, jsOrStr, hm, hne]
  · rintro (hm | hm) <;> simp [toBillInput, jsOrStr, hm]
  · intro d hd hne
    simp [toBillInput, jsOrStr, hd, hne]
  · simp [toBillInput, jsOrStr]

/-- Witness for C1: a nonempty supplied title is kept, and the claimed
grocery example output. -/
theorem C1_witness :
    (toBillInput { items := [], total := 0, currency := none, date := none,
                   merchant := none } (some "Grocery Receipt") 0).title
      = "Grocery Receipt" ∧
    toBillInput { items := [{ name := "Milk", quantity := 1, price := mkRat 399 100 }],
                  total := mkRat 399 100, currency := none, date := some "2025-03-15",
                  merchant := some "Grocery Store" } none 0
      = { title := "Bill from receipt image",
          description := "Created from receipt: Grocery Store",
          due_date := "2025-03-15", paid := false,
          items := [{ name := "Milk", description := "", amount := mkRat 399 100,
                      quantity := 1 }] } :=
  ⟨(C1_ok { items := [], total := 0, currency := none, date := none, merchant := none }
      (some "Grocery Receipt") 0).1 ("Grocery Receipt") rfl (by decide),
   (C1_ok { items := [], total := 0, currency := none, date := none, merchant := none }
      none 0).2.2.2.2.2.2.2⟩

/-! ## Claim C4 -/

/-- C4: on POST /parser/create-bill-from-image with an attached file, when
the parse succeeds and the subsequent create succeeds, the handler calls
parseBillImage first and createBill second (the trace lists exactly these
two calls in order), the createBill payload is the transformation of the
parse result under the optional supplied title, and the response is 201
with the message, the created id as billId, and the parser result as
parsedData. -/
theorem C4_ok (parse : String → String → Except ServiceError ParsedReceipt)
    (create : Json → Except ServiceError CreatedBill)
    (f : ImageFile) (titleField : Option String) (now : Nat)
    (parsed : ParsedReceipt) (created : CreatedBill)
    (hp : parse f.buffer f.originalname = .ok parsed)
    (hc : create (billInputToJson (toBillInput parsed titleField now)) = .ok created) :
    createBillFromImageHandler parse create (some f) titleField now
      = ((201, Json.mkObj
            [("message", .str "Bill created successfully from parsed image"),
             ("billId", .num created.id),
             ("parsedData", parsedReceiptToJson parsed)]),
         [.callParse f.buffer f.originalname,
          .callCreate (billInputToJson (toBillInput parsed titleField now))]) := by
  simp only [createBillFromImageHandler]
  rw [hp]
  dsimp only
  rw [hc]

/-- Witness for C4 on a concrete file, parse result and created id. -/
theorem C4_witness :
    createBillFromImageHandler
        (fun _ _ => .ok { items := [{ name := "Milk", quantity := 1, price := mkRat 399 100 }],
                          total := mkRat 399 100, currency := none,
                          date := some "2025-03-15", merchant := some "Grocery Store" })
        (fun _ => .ok { id := 3 })
        (some { buffer := "imgbytes", originalname := "test.jpg",
                mimetype := "image/jpeg", size := 14 })
        none 20162
      = ((201, Json.mkObj
            [("message", .str "Bill created successfully from parsed image"),
             ("billId", .num 3),
             ("parsedData", parsedReceiptToJson
                { items := [{ name := "Milk", quantity := 1, price := mkRat 399 100 }],
                  total := mkRat 399 100, currency := none,
                  date := some "2025-03-15", merchant := some "Grocery Store" })]),
         [.callParse ("imgbytes") ("test.jpg"),
          .callCreate (billInputToJson (toBillInput
            { items := [{ name := "Milk", quantity := 1, price := mkRat 399 100 }],
              total := mkRat 399 100, currency := none,
              date := some "2025-03-15", merchant := some "Grocery Store" }
            none 20162))]) :=
  C4_ok _ _ { buffer := "imgbytes", originalname := "test.jpg",
              mimetype := "image/jpeg", size := 14 } none 20162
    { items := [{ name := "Milk", quantity := 1, price := mkRat 399 100 }],
      total := mkRat 399 100, currency := none,
      date := some "2025-03-15", merchant := some "Grocery Store" }
    { id := 3 } rfl rfl

/-! ## Claim C6 -/

/-- C6: a request to either parser endpoint with no attached file gets 400
with error No image file provided, and no upstream call is made (the trace
is empty, so parseBillImage is never invoked). -/
theorem C6_ok (parse : String → String → Except ServiceError ParsedReceipt)
    (create : Json → Except ServiceError CreatedBill)
    (titleField : Option String) (now : Nat) :
    parseBillEndpoint parse none
      = ((400, Json.mkObj [("error", .str "No image file provided")]), []) ∧
    createBillFromImageEndpoint parse create none titleField now
      = ((400, Json.mkObj [("error", .str "No image file provided")]), []) :=
  ⟨rfl, rfl⟩

/-! ## More helper lemmas, for C5 and C10 -/

theorem titleViolations_missing (j : Json) (h : getField j ("title") = none) :
    titleViolations j = ["\"title\" is required"] := by
  unfold titleViolations
  rw [h]

theorem billViolations_title_missing (j : Json) (h : getField j ("title") = none) :
    billViolations j ≠ [] := by
  cases j with
  | obj fields =>
    unfold billViolations
    dsimp only
    rw [titleViolations_missing _ h]
    simp
  | null => simp [billViolations]
  | bool b => simp [billViolations]
  | num q => simp [billViolations]
  | str s => simp [billViolations]
  | arr l => simp [billViolations]

theorem validationFailureBody_cons (m : String) (rest : List String) :
    validationFailureBody (m :: rest) = Json.mkObj [("error", .str m)] := by
  simp [validationFailureBody, joiReported, intercalate_singleton]

theorem createBillRoute_invalid (create : Json → Except ServiceError Json)
    (body : Json) (m : String) (rest : List String)
    (h : billViolations body = m :: rest) :
    createBillRoute create body = ((400, Json.mkObj [("error", .str m)]), []) := by
  unfold createBillRoute
  rw [h, validationFailureBody_cons]
  simp

theorem updateBillRoute_invalid_body (update : String → Json → Except ServiceError Json)
    (idStr : String) (body : Json) (m : String) (rest : List String)
    (hid : idParamViolations idStr = []) (h : billViolations body = m :: rest) :
    updateBillRoute update idStr body = ((400, Json.mkObj [("error", .str m)]), []) := by
  unfold updateBillRoute
  rw [hid, h, validationFailureBody_cons]
  simp

theorem getBillByIdRoute_invalid_id (getBill : String → Except ServiceError Json)
    (idStr : String) (m : String) (rest : List String)
    (h : idParamViolations idStr = m :: rest) :
    getBillByIdRoute getBill idStr = ((400, Json.mkObj [("error", .str m)]), []) := by
  unfold getBillByIdRoute
  rw [h, validationFailureBody_cons]
  simp

theorem deleteBillRoute_invalid_id (deleteOp : String → Except ServiceError Json)
    (idStr : String) (m : String) (rest : List String)
    (h : idParamViolations idStr = m :: rest) :
    deleteBillRoute deleteOp idStr = ((400, Json.mkObj [("error", .str m)]), []) := by
  unfold deleteBillRoute
  rw [h, validationFailureBody_cons]
  simp

/-! ## Claim C5 -/

/-- C5 as stated is false in one respect: on a payload violating two fields
at once, the claim says the 400 body joins ALL violated-field messages, but
Joi is called with default options and aborts on the first violation, so
only the first message is reported.  Concretely, with both `title` and
`description` of the wrong type, the body carries only the title message. -/
theorem C5_counterexample :
    billViolations (Json.mkObj [("title", .num 5), ("description", .bool true)])
      = ["\"title\" must be a string", "\"description\" must be a string"] ∧
    (createBillRoute (fun _ => .ok .null)
        (Json.mkObj [("title", .num 5), ("description", .bool true)])).1
      ≠ (400, Json.mkObj [("error", .str
          "\"title\" must be a string, \"description\" must be a string")]) ∧
    (createBillRoute (fun _ => .ok .null)
        (Json.mkObj [("title", .num 5), ("description", .bool true)])).1
      = (400, Json.mkObj [("error", .str "\"title\" must be a string")]) := by
  decide

/-- C5 (amended): a payload failing schema validation gets 400 with an
error body carrying the reported violation message (under the Joi
abort-early default, the first violated field's message) and the upstream
client is never called (empty trace); a valid-shaped body missing `title`
always fails validation; an id parameter that does not coerce to an integer
always fails validation, with the same 400-and-no-call behavior. -/
theorem C5_ok (create : Json → Except ServiceError Json)
    (update : String → Json → Except ServiceError Json)
    (getBill : String → Except ServiceError Json)
    (deleteOp : String → Except ServiceError Json)
    (body : Json) (idStr : String) :
    (∀ m rest, billViolations body = m :: rest →
        createBillRoute create body = ((400, Json.mkObj [("error", .str m)]), []) ∧
        (idParamViolations idStr = [] →
          updateBillRoute update idStr body
            = ((400, Json.mkObj [("error", .str m)]), []))) ∧
    (getField body ("title") = none → billViolations body ≠ []) ∧
    (∀ m rest, idParamViolations idStr = m :: rest →
        getBillByIdRoute getBill idStr = ((400, Json.mkObj [("error", .str m)]), []) ∧
        deleteBillRoute deleteOp idStr = ((400, Json.mkObj [("error", .str m)]), [])) := by
  refine ⟨?_, billViolations_title_missing body, ?_⟩
  · intro m rest h
    exact ⟨createBillRoute_invalid create body m rest h,
           fun hid => updateBillRoute_invalid_body update idStr body m rest hid h⟩
  · intro m rest h
    exact ⟨getBillByIdRoute_invalid_id getBill idStr m rest h,
           deleteBillRoute_invalid_id deleteOp idStr m rest h⟩

/-- Witness for C5: a body with no title is rejected with the required
message and an empty trace, and a non-numeric id is rejected likewise. -/
theorem C5_witness :
    createBillRoute (fun _ => .ok .null) (Json.mkObj [])
      = ((400, Json.mkObj [("error", .str "\"title\" is required")]), []) ∧
    getBillByIdRoute (fun _ => .ok .null) ("abc")
      = ((400, Json.mkObj [("error", .str "\"id\" must be a number")]), []) :=
  ⟨((C5_ok (fun _ => .ok .null) (fun _ _ => .ok .null) (fun _ => .ok .null)
      (fun _ => .ok .null) (Json.mkObj []) ("abc")).1
        ("\"title\" is required") [] (by decide)).1,
   ((C5_ok (fun _ => .ok .null) (fun _ _ => .ok .null) (fun _ => .ok .null)
      (fun _ => .ok .null) (Json.mkObj []) ("abc")).2.2
        ("\"id\" must be a number") [] (by decide)).1⟩

/-! ## Claim C10 -/

theorem unknownKeyViolations_ne_nil (allowed : List String) :
    (fields : JsonFields) → (k : String) → k ∈ fields.keys → k ∉ allowed →
    unknownKeyViolations allowed fields ≠ []
  | .nil, k, hk, _ => by simp [JsonFields.keys] at hk
  | .cons key v t, k, hk, hn => by
    rw [show (JsonFields.cons key v t).keys = key :: t.keys from rfl] at hk
    unfold unknownKeyViolations
    rcases List.mem_cons.mp hk with heq | hmem
    · subst heq
      rw [if_neg hn]
      simp
    · intro hcontra
      rcases List.append_eq_nil.mp hcontra with ⟨-, h2⟩
      exact unknownKeyViolations_ne_nil allowed t k hmem hn h2

theorem billViolations_unknown_key (fields : JsonFields) (k : String)
    (hk : k ∈ fields.keys)
    (hn : k ∉ [("title" : String), "description", "due_date", "paid", "items"]) :
    billViolations (.obj fields) ≠ [] := by
  have hu := unknownKeyViolations_ne_nil _ fields k hk hn
  unfold billViolations
  dsimp only
  intro h
  exact hu (List.append_eq_nil.mp h).2

/-- C10: any bill-creation or bill-update body containing a top-level key
outside the five schema keys (for example Bill entity fields such as id,
total, item_count or created_at) fails validation: the route answers 400
and the upstream client is never called (empty trace); unknown keys are
rejected, not stripped or forwarded. -/
theorem C10_ok (create : Json → Except ServiceError Json)
    (update : String → Json → Except ServiceError Json)
    (fields : JsonFields) (k : String) (hk : k ∈ fields.keys)
    (hn : k ∉ [("title" : String), "description", "due_date", "paid", "items"]) :
    billViolations (Json.obj fields) ≠ [] ∧
    (createBillRoute create (Json.obj fields)).1.1 = 400 ∧
    (createBillRoute create (Json.obj fields)).2 = [] ∧
    (∀ idStr, idParamViolations idStr = [] →
      (updateBillRoute update idStr (Json.obj fields)).1.1 = 400 ∧
      (updateBillRoute update idStr (Json.obj fields)).2 = []) := by
  have hv := billViolations_unknown_key fields k hk hn
  refine ⟨hv, ?_, ?_, ?_⟩
  · unfold createBillRoute
    rw [if_neg hv]
  · unfold createBillRoute
    rw [if_neg hv]
  · intro idStr hid
    unfold updateBillRoute
    rw [hid, if_pos rfl, if_neg hv]
    exact ⟨rfl, rfl⟩

/-- Witness for C10: a valid-looking body that also carries the Bill entity
field `id` is rejected before any upstream call. -/
theorem C10_witness :
    billViolations (Json.mkObj [("title", .str "Groceries"), ("id", .num 1)]) ≠ [] ∧
    (createBillRoute (fun _ => .ok .null)
        (Json.mkObj [("title", .str "Groceries"), ("id", .num 1)])).1.1 = 400 ∧
    (createBillRoute (fun _ => .ok .null)
        (Json.mkObj [("title", .str "Groceries"), ("id", .num 1)])).2 = [] :=
  ⟨(C10_ok (fun _ => .ok .null) (fun _ _ => .ok .null)
      (JsonFields.ofList [("title", .str "Groceries"), ("id", .num 1)]) ("id")
      (by decide) (by decide)).1,
   (C10_ok (fun _ => .ok .null) (fun _ _ => .ok .null)
      (JsonFields.ofList [("title", .str "Groceries"), ("id", .num 1)]) ("id")
      (by decide) (by decide)).2.1,
   (C10_ok (fun _ => .ok .null) (fun _ _ => .ok .null)
      (JsonFields.ofList [("title", .str "Groceries"), ("id", .num 1)]) ("id")
      (by decide) (by decide)).2.2.1⟩

/-! ## Claim C8 -/

/-- C8 is a code bug: the schema declares `paid: Joi.boolean().default(false)`,
but the middleware discards the converted value Joi returns, and the POST
handler forwards `req.body` unchanged.  On the valid payload
`{title: "New Bill"}` (no `paid`), validation passes, the upstream create is
called with exactly the original body, and that body has no `paid` field at
all — not `paid: false` as the declared default promises. -/
theorem C8_bug :
    billViolations (Json.mkObj [("title", .str "New Bill")]) = [] ∧
    createBillRoute (fun _ => .ok (Json.mkObj [("id", .num 2)]))
        (Json.mkObj [("title", .str "New Bill")])
      = ((201, Json.mkObj [("id", .num 2)]),
         [.callCreate (Json.mkObj [("title", .str "New Bill")])]) ∧
    getField (Json.mkObj [("title", .str "New Bill")]) ("paid") = none ∧
    (updateBillRoute (fun _ _ => .ok (Json.mkObj [("message", .str "ok")])) ("1")
        (Json.mkObj [("title", .str "New Bill")])).2
      = [.callUpdate ("1") (Json.mkObj [("title", .str "New Bill")])] := by
  decide

/-! ## Claim C9 -/

theorem multerRejection_onlyImages :
    (errorMiddleware ⟨none, .str "Only image files are allowed"⟩, ([] : List UpCall))
    = ((500, Json.mkObj [("error", .str "Only image files are allowed")]), []) := by
  decide

theorem multerRejection_tooLarge :
    (errorMiddleware { statusCode := none, message := .str "File too large" },
      ([] : List UpCall))
    = ((500, Json.mkObj [("error", .str "File too large")]), []) := by
  decide

/-- C9 as stated is false about the status class: an oversized upload is
rejected before the handler runs (no upstream call), but the multer error
carries no statusCode, so the catch-all middleware answers 500 — not a
400-class status. -/
theorem C9_counterexample :
    parseBillEndpoint (fun _ _ => .error (handleServiceError .noResponse))
        (some { buffer := "xx", originalname := "big.png",
                mimetype := "image/png", size := 5 * 1024 * 1024 + 1 })
      = ((500, Json.mkObj [("error", .str "File too large")]), []) ∧
    ¬ (400 ≤ (500 : Nat) ∧ (500 : Nat) < 500) := by
  decide

/-- C9 (amended): a non-image upload, or an image upload larger than 5 MiB,
is rejected before any upstream call (the trace is empty and the handler
never runs), with a 500 response from the catch-all error middleware whose
body carries the multer message. -/
theorem C9_ok (parse : String → String → Except ServiceError ParsedReceipt)
    (create : Json → Except ServiceError CreatedBill)
    (titleField : Option String) (now : Nat) (f : ImageFile) :
    (strStartsWith f.mimetype ("image/") = false →
      parseBillEndpoint parse (some f)
        = ((500, Json.mkObj [("error", .str "Only image files are allowed")]), []) ∧
      createBillFromImageEndpoint parse create (some f) titleField now
        = ((500, Json.mkObj [("error", .str "Only image files are allowed")]), [])) ∧
    (strStartsWith f.mimetype ("image/") = true → 5 * 1024 * 1024 < f.size →
      parseBillEndpoint parse (some f)
        = ((500, Json.mkObj [("error", .str "File too large")]), []) ∧
      createBillFromImageEndpoint parse create (some f) titleField now
        = ((500, Json.mkObj [("error", .str "File too large")]), [])) := by
  constructor
  · intro hm
    have h1 : multerSingleImage (some f) = .error "Only image files are allowed" := by
      unfold multerSingleImage
      dsimp only
      rw [hm, if_pos rfl]
    constructor
    · unfold parseBillEndpoint
      rw [h1]
      exact multerRejection_onlyImages
    · unfold createBillFromImageEndpoint
      rw [h1]
      exact multerRejection_onlyImages
  · intro hm hs
    have h1 : multerSingleImage (some f) = .error "File too large" := by
      unfold multerSingleImage
      dsimp only
      rw [hm]
      simp [hs]
    constructor
    · unfold parseBillEndpoint
      rw [h1]
      exact multerRejection_tooLarge
    · unfold createBillFromImageEndpoint
      rw [h1]
      exact multerRejection_tooLarge

/-- Witness for C9: a concrete text file and a concrete oversized image. -/
theorem C9_witness :
    parseBillEndpoint (fun _ _ => .error (handleServiceError .noResponse))
        (some { buffer := "x", originalname := "notes.txt",
                mimetype := "text/plain", size := 10 })
      = ((500, Json.mkObj [("error", .str "Only image files are allowed")]), []) ∧
    createBillFromImageEndpoint (fun _ _ => .error (handleServiceError .noResponse))
        (fun _ => .ok { id := 1 })
        (some { buffer := "x", originalname := "big.png",
                mimetype := "image/png", size := 5 * 1024 * 1024 + 1 })
        none 0
      = ((500, Json.mkObj [("error", .str "File too large")]), []) :=
  ⟨((C9_ok (fun _ _ => .error (handleServiceError .noResponse)) (fun _ => .ok { id := 1 })
      none 0 { buffer := "x", originalname := "notes.txt",
               mimetype := "text/plain", size := 10 }).1 (by decide)).1,
   ((C9_ok (fun _ _ => .error (handleServiceError .noResponse)) (fun _ => .ok { id := 1 })
      none 0 { buffer := "x", originalname := "big.png",
               mimetype := "image/png", size := 5 * 1024 * 1024 + 1 }).2
      (by decide) (by decide)).2⟩

/-! ## Claim C7 -/

/-- C7 as stated is false about determinism over the declared inputs: the
handler reads the wall clock when `date` is absent, so two runs on the same
ParsedReceipt and title, one day apart, yield different BillInputs. -/
theorem C7_counterexample :
    toBillInput { items := [], total := 0, currency := none, date := none,
                  merchant := none } none 0
      ≠ toBillInput { items := [], total := 0, currency := none, date := none,
                      merchant := none } none 1 := by
  decide

/-- C7 (amended): the transformation is a total function of the
ParsedReceipt, the optional title and the current day; it is independent of
the clock whenever `date` is present and nonempty; and when `date` is
absent, due_date is the current date, which (for years up to 9999, where
the model matches toISOString) is in `YYYY-MM-DD` format. -/
theorem C7_ok (parsed : ParsedReceipt) (titleField : Option String)
    (now now2 : Nat) :
    (∀ d, parsed.date = some d → d ≠ "" →
        toBillInput parsed titleField now = toBillInput parsed titleField now2) ∧
    (parsed.date = none →
        (toBillInput parsed titleField now).due_date = isoDateOfDay now) ∧
    (parsed.date = none → yearOfDay now ≤ 9999 →
        matchesDatePattern ((toBillInput parsed titleField now).due_date) = true) := by
  have hdd : parsed.date = none →
      (toBillInput parsed titleField now).due_date = isoDateOfDay now := by
    intro hd
    simp [toBillInput, jsOrStr, hd]
  refine ⟨?_, hdd, ?_⟩
  · intro d hd hne
    simp [toBillInput, jsOrStr, hd, hne]
  · intro hd _
    rw [hdd hd]
    exact matchesDatePattern_isoDateOfDay now

/-- Witness for C7 at concrete receipts and days. -/
theorem C7_witness :
    toBillInput { items := [], total := 0, currency := none,
                  date := some "2025-03-15", merchant := none } none 5
      = toBillInput { items := [], total := 0, currency := none,
                      date := some "2025-03-15", merchant := none } none 99 ∧
    (toBillInput { items := [], total := 0, currency := none, date := none,
                   merchant := none } none 20162).due_date = isoDateOfDay 20162 ∧
    matchesDatePattern ((toBillInput { items := [], total := 0,
                                       currency := none, date := none,
                                       merchant := none } none 20162).due_date)
      = true :=
  ⟨(C7_ok { items := [], total := 0, currency := none, date := some "2025-03-15",
            merchant := none } none 5 99).1 ("2025-03-15") rfl (by decide),
   (C7_ok { items := [], total := 0, currency := none, date := none,
            merchant := none } none 20162 0).2.1 rfl,
   (C7_ok { items := [], total := 0, currency := none, date := none,
            merchant := none } none 20162 0).2.2 rfl (by decide)⟩
